import Mathlib

/-!
Shallow embedding of the `vesuvius` pyramid store (files `utils.py`,
`image.py`, `volume.py`).  Python machine behaviour is modelled exactly:
integers are unbounded (`Int`/`Nat`), Python floor division `//` is
`Int.fdiv`, fallible code returns `Except`.  The `numpy` float
computation `int(np.ceil(np.log2(a / b)))` is modelled by its exact
real-arithmetic value (the exact ceiling of the base-2 logarithm of the
rational `a / b`), made computable through structural fuel recursion.
Store I/O (zarr) is abstracted to the values the code hands to it:
array names are replaced by the integer level they denote, persisted
group attributes and per-array dtypes are recorded in result records.
-/

namespace Vesuvius

/-- Global chunk-size constant `CHUNK_SIZE = 1024` shared by `image.py`
and `volume.py`; the LOD resolver compares spans against
`CHUNK_SIZE // 4` regardless of the chunk shape a store was built with. -/
def CHUNK_SIZE : Int := 1024

/-- A per-axis selector of a coordinate request: either a Python `int`
or a Python `slice` with optional start, stop and step. -/
inductive Sel where
  | int (i : Int)
  | slice (start stop step : Option Int)
deriving DecidableEq, Repr

/-- Python `isinstance(x, int)` on a selector. -/
def Sel.isInt : Sel → Bool
  | .int _ => true
  | .slice _ _ _ => false

/-- The distinct failure messages raised as `PapyrusDataException`
(plus the `AttributeError` Python itself would raise were
`get_slice_size` handed a non-slice). -/
inductive DataError where
  | tooManyIndices
  | lastIndexNotInt
  | negativeScale
  | scaleTooLarge (scaleLevels : Int)
  | stepSlices
  | mustIndexWithSlices
  | attributeError
deriving DecidableEq, Repr

/-- `utils.get_slice_size`: span of a slice given the extent of the
axis; a non-null step raises, a null start defaults to `0`, a null stop
defaults to the extent. -/
def get_slice_size (item : Sel) (dimsize : Int) : Except DataError Int :=
  match item with
  | .int _ => .error .attributeError
  | .slice ostart ostop ostep =>
    match ostep with
    | some _ => .error .stepSlices
    | none => .ok ((ostop.getD dimsize) - (ostart.getD 0))

/-- `utils.downsample_slice`: rebases a selector to a level downsampled
`2^scale`-fold.  At scale `0` the selector is returned untouched (so no
step check happens there); otherwise ints and slice bounds are floor
divided by `2^scale` and a non-null step raises.  The resolver only
calls this with a validated `scale ≥ 0`, so the Python `2 ** scale` is
`2 ^ scale.toNat`. -/
def downsample_slice (item : Sel) (scale : Int) : Except DataError Sel :=
  if scale = 0 then .ok item
  else
    match item with
    | .int i => .ok (.int (i.fdiv (2 ^ scale.toNat)))
    | .slice ostart ostop ostep =>
      match ostep with
      | some _ => .error .stepSlices
      | none =>
        .ok (.slice (ostart.map (fun s => s.fdiv (2 ^ scale.toNat)))
                    (ostop.map (fun s => s.fdiv (2 ^ scale.toNat))) none)

/-- Body of the `while (scale < self.scale_levels) and scale_size > (CHUNK_SIZE // 4)`
loop of both `__getitem__` methods, with the strictly decreasing
quantity `scale_levels - scale` made explicit as structural fuel:
fuel `0` is exactly the exit condition `scale ≥ scale_levels`. -/
def scaleLoopGo : Nat → Int → Int → Int × Int
  | 0, scale, size => (scale, size)
  | f + 1, scale, size =>
    if CHUNK_SIZE.fdiv 4 < size then scaleLoopGo f (scale + 1) (size.fdiv 2)
    else (scale, size)

/-- The `while` loop of both `__getitem__` methods: starting from
`scale`, returns the final `(scale, scale_size)`. -/
def scaleLoop (sl : Int) (scale : Int) (size : Int) : Int × Int :=
  scaleLoopGo (sl - scale).toNat scale size

/-- Iterated Python floor halving `size // 2`, the size rewriting the
loop performs. -/
def halveN : Int → Nat → Int
  | s, 0 => s
  | s, k + 1 => halveN (s.fdiv 2) k

/-- A read the resolver issues against the store: the pyramid level
(`0` denotes the base array `image`/`volume`, `k ≥ 1` the array
suffixed `_downsampled{k}`) and the selectors passed to it. -/
structure ResolvedRead where
  level : Int
  sels : List Sel
deriving DecidableEq, Repr

/-- Opened handle over an image store (`PapyrusImage`): level-0 shape
and the `scale_levels` the handle reports. -/
structure ImageHandle where
  shape0 : Int
  shape1 : Int
  scale_levels : Int
deriving DecidableEq, Repr

/-- Opened handle over a volume store (`PapyrusVolume`). -/
structure VolumeHandle where
  shape0 : Int
  shape1 : Int
  shape2 : Int
  scale_levels : Int
deriving DecidableEq, Repr

/-- The tail of both `__getitem__` methods, from the
`isinstance(scale, int)` validation on: an already-integer `scale` is
checked for sign and against `scale_levels`, then every positional
selector is rebased by `downsample_slice` and the read is issued. -/
def finishCommon (sl : Int) (sels : List Sel) (scale : Int) :
    Except DataError ResolvedRead :=
  if scale < 0 then .error .negativeScale
  else if sl < scale then .error (.scaleTooLarge sl)
  else do
    let rebased ← sels.mapM (fun s => downsample_slice s scale)
    .ok ⟨scale, rebased⟩

/-- `PapyrusImage.__getitem__`: a 2-tuple key triggers implicit level
selection (scalar bypass straight to level 0, otherwise the
`scaleLoop` over the maximal span); a 3-tuple key carries an explicit
final level selector which must be an `int`; other lengths raise. -/
def imageGetitem (h : ImageHandle) (key : List Sel) :
    Except DataError ResolvedRead :=
  match key with
  | [x, y] =>
    if x.isInt || y.isInt then .ok ⟨0, [x, y]⟩
    else do
      let sx ← get_slice_size x h.shape0
      let sy ← get_slice_size y h.shape1
      finishCommon h.scale_levels [x, y] (scaleLoop h.scale_levels 0 (max sx sy)).1
  | [x, y, s] =>
    match s with
    | .int scale => finishCommon h.scale_levels [x, y] scale
    | .slice _ _ _ => .error .lastIndexNotInt
  | _ => .error .tooManyIndices

/-- `PapyrusVolume.__getitem__`: as `imageGetitem` with rank 3. -/
def volumeGetitem (h : VolumeHandle) (key : List Sel) :
    Except DataError ResolvedRead :=
  match key with
  | [x, y, z] =>
    if x.isInt || y.isInt || z.isInt then .ok ⟨0, [x, y, z]⟩
    else do
      let sx ← get_slice_size x h.shape0
      let sy ← get_slice_size y h.shape1
      let sz ← get_slice_size z h.shape2
      finishCommon h.scale_levels [x, y, z]
        (scaleLoop h.scale_levels 0 (max (max sx sy) sz)).1
  | [x, y, z, s] =>
    match s with
    | .int scale => finishCommon h.scale_levels [x, y, z] scale
    | .slice _ _ _ => .error .lastIndexNotInt
  | _ => .error .tooManyIndices

/-- Floor base-2 logarithm by structural fuel recursion (kernel
reducible); agrees with `Nat.log 2` whenever the fuel dominates. -/
def flog2Aux : Nat → Nat → Nat
  | 0, _ => 0
  | f + 1, n => if n < 2 then 0 else flog2Aux f (n / 2) + 1

/-- Floor base-2 logarithm, `flog2 n = Nat.log 2 n`. -/
def flog2 (n : Nat) : Nat := flog2Aux n n

/-- Ceiling base-2 logarithm by structural fuel recursion. -/
def clog2Aux : Nat → Nat → Nat
  | 0, _ => 0
  | f + 1, n => if n ≤ 1 then 0 else clog2Aux f ((n + 1) / 2) + 1

/-- Ceiling base-2 logarithm, `clog2 n = Nat.clog 2 n`. -/
def clog2 (n : Nat) : Nat := clog2Aux n n

/-- Exact value of `int(np.ceil(np.log2(a / b)))` for positive `a`,
`b`: the ceiling of the base-2 logarithm of the rational `a / b`,
which may be negative when `a < b`. -/
def ceilLog2Ratio (a b : Nat) : Int :=
  if a ≤ b then -(flog2 (b / a) : Int) else (clog2 ((a + b - 1) / b) : Int)

/-- The `scale_levels` both builders compute:
`min(10, int(max(ceil(log2(shape0 / chunk0)), ceil(log2(shape1 / chunk1)))))`
— note the absence of any lower clamp. -/
def image_scale_levels (s0 s1 c0 c1 : Nat) : Int :=
  min 10 (max (ceilLog2Ratio s0 c0) (ceilLog2Ratio s1 c1))

/-- The numpy dtypes reachable in this code base: the integer scalar
types produced by `np.min_scalar_type` on Python ints, `np.bool8`,
and `float64` (numpy's promotion of `uint64` with a signed type, and
zarr's default dtype when none is given). -/
inductive Dtype where
  | bool8 | uint8 | uint16 | uint32 | uint64
  | int8 | int16 | int32 | int64 | float64
deriving DecidableEq, Repr

/-- Width index of an unsigned dtype (`0` when not unsigned). -/
def uintSize : Dtype → Nat
  | .uint8 => 1 | .uint16 => 2 | .uint32 => 3 | .uint64 => 4 | _ => 0

/-- Width index of a signed dtype (`0` when not signed). -/
def intSize : Dtype → Nat
  | .int8 => 1 | .int16 => 2 | .int32 => 3 | .int64 => 4 | _ => 0

/-- Unsigned dtype of a given width index. -/
def uintOf : Nat → Dtype
  | 1 => .uint8 | 2 => .uint16 | 3 => .uint32 | 4 => .uint64 | _ => .float64

/-- Signed dtype of a given width index; numpy promotes a `uint64`
mixed with any signed type to `float64`, modelled by the fallthrough. -/
def intOf : Nat → Dtype
  | 1 => .int8 | 2 => .int16 | 3 => .int32 | 4 => .int64 | _ => .float64

/-- `np.find_common_type([a, b], [])` restricted to the integer scalar
types `np.min_scalar_type` can produce: equal kinds take the larger
width; an unsigned mixed with a signed takes the smallest signed type
containing both, except that `uint64` mixed with a signed type yields
`float64`. -/
def promote (a b : Dtype) : Dtype :=
  if 0 < uintSize a ∧ 0 < uintSize b then uintOf (max (uintSize a) (uintSize b))
  else if 0 < intSize a ∧ 0 < intSize b then intOf (max (intSize a) (intSize b))
  else
    let u := max (uintSize a) (uintSize b)
    let i := max (intSize a) (intSize b)
    if u = 4 then .float64
    else if u < i then intOf i
    else intOf (u + 1)

/-- `np.min_scalar_type` on a Python int within 64-bit range: the
smallest unsigned type for nonnegative values, the smallest signed
type otherwise. -/
def min_scalar_type (v : Int) : Dtype :=
  if 0 ≤ v then
    if v < 256 then .uint8
    else if v < 65536 then .uint16
    else if v < 4294967296 then .uint32
    else .uint64
  else
    if -128 ≤ v then .int8
    else if -32768 ≤ v then .int16
    else if -2147483648 ≤ v then .int32
    else .int64

/-- Smallest value representable by a dtype (`float64` unused here). -/
def dtLo : Dtype → Int
  | .bool8 => 0 | .uint8 => 0 | .uint16 => 0 | .uint32 => 0 | .uint64 => 0
  | .int8 => -128 | .int16 => -32768 | .int32 => -2147483648
  | .int64 => -9223372036854775808 | .float64 => -9223372036854775808

/-- Largest value representable by a dtype (`float64` unused here). -/
def dtHi : Dtype → Int
  | .bool8 => 1 | .uint8 => 255 | .uint16 => 65535 | .uint32 => 4294967295
  | .uint64 => 18446744073709551615
  | .int8 => 127 | .int16 => 32767 | .int32 => 2147483647
  | .int64 => 9223372036854775807 | .float64 => 9223372036854775807

/-- `utils.get_min_datatype` on the array's observed minimum and
maximum: the common type of the two minimal scalar types, demoted to
`np.bool8` when that common type is `uint8` and the maximum is `0` or
`1`. -/
def get_min_datatype (mn mx : Int) : Dtype :=
  let d := promote (min_scalar_type mn) (min_scalar_type mx)
  if d = .uint8 ∧ (mx = 0 ∨ mx = 1) then .bool8 else d

/-- Minimum of a list of ints (`0` on the empty list, which Python
would reject). -/
def listMin : List Int → Int
  | [] => 0
  | x :: xs => xs.foldl min x

/-- Maximum of a list of ints (`0` on the empty list). -/
def listMax : List Int → Int
  | [] => 0
  | x :: xs => xs.foldl max x

/-- Python `l[a:b]` on a list with nonnegative bounds. -/
def applyLims (l : List α) : Option (Nat × Nat) → List α
  | none => l
  | some p => (l.take p.2).drop p.1

/-- 2-dimensional crop by the optional `xlims`/`ylims` bound pairs. -/
def crop2 (img : List (List Int)) (xl yl : Option (Nat × Nat)) :
    List (List Int) :=
  (applyLims img xl).map (fun row => applyLims row yl)

/-- Column count of a row-major 2-dimensional array. -/
def numCols : List (List Int) → Nat
  | [] => 0
  | r :: _ => r.length

/-- `ndarray.astype` on one integer value: wraparound for the fixed
integer types, nonzero test for booleans.  In the builder it is applied
with the dtype fitted to the full data, so it is value preserving
there. -/
def castVal (d : Dtype) (v : Int) : Int :=
  match d with
  | .bool8 => if v = 0 then 0 else 1
  | .uint8 => v.emod 256
  | .uint16 => v.emod 65536
  | .uint32 => v.emod 4294967296
  | .uint64 => v.emod 18446744073709551616
  | .int8 => (v + 128).emod 256 - 128
  | .int16 => (v + 32768).emod 65536 - 32768
  | .int32 => (v + 2147483648).emod 4294967296 - 2147483648
  | .int64 => (v + 9223372036854775808).emod 18446744073709551616
      - 9223372036854775808
  | .float64 => v

/-- What `PapyrusImage.build_from_image` persists: the level-0 dtype
and data, the (cropped) shape, the group attributes, and the dtype of
each stored downsampled array (`root.array(data=...)` infers it from
the data, which is cast back to the level-0 dtype). -/
structure ImageBuild where
  dtype : Dtype
  shape0 : Nat
  shape1 : Nat
  level0 : List (List Int)
  multiscale : Bool
  scale_levels_attr : Option Int
  downsampledDtypes : List Dtype
deriving DecidableEq, Repr

/-- `PapyrusImage.build_from_image` on a loaded source array: casts to
`get_min_datatype` of the full data first, crops by `xlims`/`ylims`
afterwards, writes level 0, and when `multiscale` persists
`scale_levels` (computed from the cropped shape) and one downsampled
array per level `1..scale_levels`, each cast back to the level-0
dtype. -/
def build_from_image (img : List (List Int)) (chunk : Nat × Nat)
    (multiscale : Bool) (xlims ylims : Option (Nat × Nat)) : ImageBuild :=
  let d := get_min_datatype (listMin img.flatten) (listMax img.flatten)
  let casted := img.map (List.map (castVal d))
  let cropped := crop2 casted xlims ylims
  let s0 := cropped.length
  let s1 := numCols cropped
  { dtype := d
    shape0 := s0
    shape1 := s1
    level0 := cropped
    multiscale := multiscale
    scale_levels_attr :=
      if multiscale then some (image_scale_levels s0 s1 chunk.1 chunk.2) else none
    downsampledDtypes :=
      if multiscale then
        List.replicate (image_scale_levels s0 s1 chunk.1 chunk.2).toNat d
      else [] }

/-- `self.scale_levels` as `PapyrusImage.__init__` /
`PapyrusVolume.__init__` derive it from the persisted attributes:
the stored attribute when `multiscale`, else `0`.  `none` models the
`KeyError` of a multiscale store lacking the attribute. -/
def load_scale_levels (multiscale : Bool) (attr : Option Int) : Option Int :=
  if multiscale then attr else some 0

/-- Opening a freshly built image store as a `PapyrusImage` handle. -/
def openImage (b : ImageBuild) : Option ImageHandle :=
  (load_scale_levels b.multiscale b.scale_levels_attr).map
    (fun sl => ⟨(b.shape0 : Int), (b.shape1 : Int), sl⟩)

/-- Failures of `PapyrusVolume.build_from_tiffdir`: a gap in the
depth range, the `TypeError` Python raises for
`range(zstart, zstop, step=zstride)` (the builtin `range` accepts no
keyword arguments), and the `ValueError` of `min()`/`max()` on an
empty file dictionary. -/
inductive VolError where
  | missingFile (z : Int)
  | typeError
  | emptySource
deriving DecidableEq, Repr

/-- What `PapyrusVolume.build_from_tiffdir` persists on success:
level-0 shape and dtype, the group attributes, and the dtype of each
stored downsampled array — created by `root.zeros(...)` with no
`dtype=` argument, hence zarr's default `float64`, even though the
data written into it was cast back to the level-0 dtype. -/
structure VolumeBuild where
  shape : Nat × Nat × Nat
  level0Dtype : Dtype
  multiscale : Bool
  scale_levels_attr : Option Int
  downsampledDtypes : List Dtype
deriving DecidableEq, Repr

/-- `np.arange(a, b, step=s)` over ints for `s ≥ 1`. -/
def arangeStep (a b : Int) (s : Int) : List Int :=
  (List.range (((b - a).toNat + (s.toNat - 1)) / s.toNat)).map
    (fun i => a + i * s)

/-- The z-range computation of `build_from_tiffdir`.  With `zlims`
unset it is `np.arange(min(keys), max(keys) + 1, step=zstride)` (a
keyword `np.arange` accepts, `None` meaning `1`).  With `zlims` set the
code calls `range(zstart, zstop, step=zstride)`, and the builtin
`range` rejects the keyword — a `TypeError` on every input (preceded
only by the `max()` call when the stop bound is `None`, which on an
empty source raises first). -/
def computeZRange (files : List Int)
    (zlims : Option (Option Int × Option Int)) (zstride : Option Int) :
    Except VolError (List Int) :=
  match zlims with
  | none =>
    match files with
    | [] => .error .emptySource
    | _ => .ok (arangeStep (listMin files) (listMax files + 1) (zstride.getD 1))
  | some p =>
    match p.2, files with
    | none, [] => .error .emptySource
    | _, _ => .error .typeError

/-- The `for z in zrange: if z not in imgfiles: raise` check: fails on
the first required index with no source slice. -/
def checkSlices (zrange files : List Int) : Except VolError Unit :=
  match zrange.find? (fun z => !(files.contains z)) with
  | some z => .error (.missingFile z)
  | none => .ok ()

/-- Length of a dimension after an optional crop, Python slice
clamping included. -/
def croppedDim (n : Nat) : Option (Nat × Nat) → Nat
  | none => n
  | some p => min p.2 n - min p.1 n

/-- `PapyrusVolume.build_from_tiffdir`: source slices are abstracted to
their integer indices (`files`), a uniform pre-crop plane shape
(`srcShape`) and dtype (`srcDtype`); `chunk` carries the two spatial
chunk dimensions (`chunk_size[0]`, `chunk_size[1]`; the depth chunk is
`1` and unused here).  The z-range is computed and every required
index checked against `files` before any array is created, so an error
result implies nothing was written to the destination store. -/
def build_from_tiffdir (files : List Int) (srcShape : Nat × Nat)
    (srcDtype : Dtype) (chunk : Nat × Nat) (multiscale : Bool)
    (xlims ylims : Option (Nat × Nat))
    (zlims : Option (Option Int × Option Int)) (zstride : Option Int) :
    Except VolError VolumeBuild := do
  let zrange ← computeZRange files zlims zstride
  checkSlices zrange files
  let cx := croppedDim srcShape.1 xlims
  let cy := croppedDim srcShape.2 ylims
  let sl := image_scale_levels cx cy chunk.1 chunk.2
  .ok { shape := (cx, cy, zrange.length)
        level0Dtype := srcDtype
        multiscale := multiscale
        scale_levels_attr := if multiscale then some sl else none
        downsampledDtypes :=
          if multiscale then List.replicate sl.toNat .float64 else [] }

/-! Helper lemmas. -/

lemma flog2Aux_eq_log (f : Nat) : ∀ n : Nat, n ≤ f → flog2Aux f n = Nat.log 2 n := by
  induction f with
  | zero =>
    intro n hn
    interval_cases n
    simp [flog2Aux]
  | succ f ih =>
    intro n hn
    by_cases h2 : n < 2
    · have hlog : Nat.log 2 n = 0 := Nat.log_eq_zero_iff.mpr (Or.inl h2)
      simp [flog2Aux, h2, hlog]
    · have hrec : flog2Aux (f + 1) n = flog2Aux f (n / 2) + 1 := by
        simp [flog2Aux, h2]
      have hih : flog2Aux f (n / 2) = Nat.log 2 (n / 2) := ih (n / 2) (by omega)
      have hdiv : Nat.log 2 (n / 2) = Nat.log 2 n - 1 := Nat.log_div_base 2 n
      have hpos : 0 < Nat.log 2 n := Nat.log_pos (by norm_num) (by omega)
      omega

lemma flog2_eq_log (n : Nat) : flog2 n = Nat.log 2 n :=
  flog2Aux_eq_log n n le_rfl

lemma clog2Aux_eq_clog (f : Nat) : ∀ n : Nat, n ≤ f → clog2Aux f n = Nat.clog 2 n := by
  induction f with
  | zero =>
    intro n hn
    interval_cases n
    simp [clog2Aux, Nat.clog_of_right_le_one]
  | succ f ih =>
    intro n hn
    by_cases h2 : n ≤ 1
    · simp [clog2Aux, h2, Nat.clog_of_right_le_one h2]
    · have hrec : clog2Aux (f + 1) n = clog2Aux f ((n + 1) / 2) + 1 := by
        simp [clog2Aux, h2]
      have hih : clog2Aux f ((n + 1) / 2) = Nat.clog 2 ((n + 1) / 2) :=
        ih ((n + 1) / 2) (by omega)
      have hclog : Nat.clog 2 n = Nat.clog 2 ((n + 2 - 1) / 2) + 1 :=
        Nat.clog_of_two_le (by norm_num) (by omega)
      have harg : n + 2 - 1 = n + 1 := by omega
      rw [hrec, hih, hclog, harg]

lemma clog2_eq_clog (n : Nat) : clog2 n = Nat.clog 2 n :=
  clog2Aux_eq_clog n n le_rfl

lemma ceilLog2Ratio_nonpos {a b : Nat} (h : a ≤ b) : ceilLog2Ratio a b ≤ 0 := by
  simp [ceilLog2Ratio, h]

lemma ceilLog2Ratio_eq_zero {a b : Nat} (ha : 0 < a) (hab : a ≤ b)
    (hhalf : b < 2 * a) : ceilLog2Ratio a b = 0 := by
  have hdiv : b / a = 1 := by
    have h1 : 1 ≤ b / a := (Nat.one_le_div_iff ha).mpr hab
    have h2 : b / a < 2 := Nat.div_lt_of_lt_mul (by omega)
    omega
  simp [ceilLog2Ratio, hab, hdiv, flog2_eq_log, Nat.log_one_right]

lemma ceilLog2Ratio_neg {a b : Nat} (ha : 0 < a) (hab : 2 * a ≤ b) :
    ceilLog2Ratio a b ≤ -1 := by
  have hle : a ≤ b := by omega
  have hdiv : 2 ≤ b / a := (Nat.le_div_iff_mul_le ha).mpr (by omega)
  have hpos : 0 < Nat.log 2 (b / a) := Nat.log_pos (by norm_num) hdiv
  simp only [ceilLog2Ratio, if_pos hle, flog2_eq_log]
  omega

lemma chunk_quarter : CHUNK_SIZE.fdiv 4 = 256 := rfl

lemma halveN_succ (s : Int) (k : Nat) : halveN s (k + 1) = halveN (s.fdiv 2) k := rfl

lemma scaleLoopGo_spec (f : Nat) : ∀ scale size : Int,
    ∃ j : Nat, j ≤ f ∧ scaleLoopGo f scale size = (scale + j, halveN size j) ∧
      (∀ m : Nat, m < j → CHUNK_SIZE.fdiv 4 < halveN size m) ∧
      (j < f → halveN size j ≤ CHUNK_SIZE.fdiv 4) := by
  induction f with
  | zero =>
    intro scale size
    exact ⟨0, le_rfl, by simp [scaleLoopGo, halveN], by omega, by omega⟩
  | succ f ih =>
    intro scale size
    by_cases hc : CHUNK_SIZE.fdiv 4 < size
    · obtain ⟨j, hj, heq, hall, hstop⟩ := ih (scale + 1) (size.fdiv 2)
      refine ⟨j + 1, by omega, ?_, ?_, ?_⟩
      · rw [show scaleLoopGo (f + 1) scale size = scaleLoopGo f (scale + 1) (size.fdiv 2) by
          simp [scaleLoopGo, hc]]
        rw [heq, halveN_succ, Prod.mk.injEq]
        exact ⟨by push_cast; ring, rfl⟩
      · intro m hm
        match m with
        | 0 => exact hc
        | m + 1 => exact (halveN_succ size m) ▸ hall m (by omega)
      · intro hlt
        exact (halveN_succ size j) ▸ hstop (by omega)
    · refine ⟨0, by omega, by simp [scaleLoopGo, hc, halveN], by omega, fun _ => ?_⟩
      simpa [halveN] using not_lt.mp hc

lemma scaleLoop_spec (sl size : Int) (hsl : 0 ≤ sl) :
    ∃ j : Nat, (j : Int) ≤ sl ∧ scaleLoop sl 0 size = ((j : Int), halveN size j) ∧
      (∀ m : Nat, m < j → CHUNK_SIZE.fdiv 4 < halveN size m) ∧
      ((j : Int) < sl → halveN size j ≤ CHUNK_SIZE.fdiv 4) := by
  obtain ⟨j, hj, heq, hall, hstop⟩ := scaleLoopGo_spec (sl - 0).toNat 0 size
  refine ⟨j, by omega, ?_, hall, fun hlt => hstop (by omega)⟩
  rw [scaleLoop, heq]
  norm_num

lemma ceilLog2Ratio_spec (a b : Nat) (ha : 0 < a) (hb : 0 < b) :
    (a : ℚ) / b ≤ (2 : ℚ) ^ ceilLog2Ratio a b ∧
    (2 : ℚ) ^ (ceilLog2Ratio a b - 1) < (a : ℚ) / b := by
  have hbQ : (0 : ℚ) < b := by exact_mod_cast hb
  by_cases hab : a ≤ b
  · have hk : ceilLog2Ratio a b = -(Nat.log 2 (b / a) : ℤ) := by
      simp [ceilLog2Ratio, hab, flog2_eq_log]
    have hdiv1 : 1 ≤ b / a := (Nat.one_le_div_iff ha).mpr hab
    have hnat1 : 2 ^ Nat.log 2 (b / a) * a ≤ b := by
      calc 2 ^ Nat.log 2 (b / a) * a ≤ b / a * a :=
            Nat.mul_le_mul_right a (Nat.pow_log_le_self 2 (by omega))
      _ ≤ b := Nat.div_mul_le_self b a
    have hnat2 : b < 2 ^ (Nat.log 2 (b / a) + 1) * a := by
      have h1 : b / a < 2 ^ (Nat.log 2 (b / a) + 1) :=
        Nat.lt_pow_succ_log_self (by norm_num) (b / a)
      have h2 := Nat.div_add_mod b a
      have h3 : b % a < a := Nat.mod_lt b ha
      calc b < a * (b / a + 1) := by rw [Nat.mul_add, Nat.mul_one]; omega
      _ ≤ a * 2 ^ (Nat.log 2 (b / a) + 1) := Nat.mul_le_mul_left a (by omega)
      _ = 2 ^ (Nat.log 2 (b / a) + 1) * a := Nat.mul_comm _ _
    have hq1 : (2 : ℚ) ^ Nat.log 2 (b / a) * a ≤ b := by exact_mod_cast hnat1
    have hq2 : (b : ℚ) < 2 ^ (Nat.log 2 (b / a) + 1) * a := by exact_mod_cast hnat2
    have h2L : (0 : ℚ) < (2 : ℚ) ^ Nat.log 2 (b / a) := by positivity
    have h2L1 : (0 : ℚ) < (2 : ℚ) ^ (Nat.log 2 (b / a) + 1) := by positivity
    constructor
    · rw [hk, zpow_neg, zpow_natCast, div_le_iff₀ hbQ, inv_mul_eq_div, le_div_iff₀ h2L]
      calc (a : ℚ) * 2 ^ Nat.log 2 (b / a) = 2 ^ Nat.log 2 (b / a) * a := mul_comm _ _
      _ ≤ b := hq1
    · rw [hk]
      rw [show -(Nat.log 2 (b / a) : ℤ) - 1 = -((Nat.log 2 (b / a) + 1 : ℕ) : ℤ) by
        push_cast; ring]
      rw [zpow_neg, zpow_natCast, lt_div_iff₀ hbQ, inv_mul_lt_iff₀ h2L1]
      exact hq2
  · have hba : b < a := by omega
    have hk : ceilLog2Ratio a b = (Nat.clog 2 ((a + b - 1) / b) : ℤ) := by
      simp [ceilLog2Ratio, hab, clog2_eq_clog]
    have hm2 : 2 ≤ (a + b - 1) / b := (Nat.le_div_iff_mul_le hb).mpr (by omega)
    have hmb_le : (a + b - 1) / b * b ≤ a + b - 1 := Nat.div_mul_le_self (a + b - 1) b
    have ha_le : a ≤ (a + b - 1) / b * b := by
      have h2 := Nat.div_add_mod (a + b - 1) b
      have h3 : (a + b - 1) % b < b := Nat.mod_lt (a + b - 1) hb
      have h4 : b * ((a + b - 1) / b) = (a + b - 1) / b * b := Nat.mul_comm _ _
      omega
    have hm_le : (a + b - 1) / b ≤ 2 ^ Nat.clog 2 ((a + b - 1) / b) :=
      (Nat.le_pow_iff_clog_le (by norm_num)).mpr le_rfl
    have hC1 : 0 < Nat.clog 2 ((a + b - 1) / b) := Nat.clog_pos (by norm_num) hm2
    have hlt : 2 ^ (Nat.clog 2 ((a + b - 1) / b) - 1) < (a + b - 1) / b :=
      (Nat.pow_lt_iff_lt_clog (by norm_num)).mpr (by omega)
    have hm1b : ((a + b - 1) / b - 1) * b < a := by
      have h5 : ((a + b - 1) / b - 1) * b = (a + b - 1) / b * b - b := by
        rw [Nat.sub_mul, Nat.one_mul]
      omega
    have hfinal_nat : 2 ^ (Nat.clog 2 ((a + b - 1) / b) - 1) * b < a := by
      calc 2 ^ (Nat.clog 2 ((a + b - 1) / b) - 1) * b ≤ ((a + b - 1) / b - 1) * b :=
            Nat.mul_le_mul_right b (by omega)
      _ < a := hm1b
    constructor
    · rw [hk, zpow_natCast, div_le_iff₀ hbQ]
      have : a ≤ 2 ^ Nat.clog 2 ((a + b - 1) / b) * b :=
        ha_le.trans (Nat.mul_le_mul_right b hm_le)
      exact_mod_cast this
    · rw [hk]
      rw [show (Nat.clog 2 ((a + b - 1) / b) : ℤ) - 1 =
          ((Nat.clog 2 ((a + b - 1) / b) - 1 : ℕ) : ℤ) by omega]
      rw [zpow_natCast, lt_div_iff₀ hbQ]
      exact_mod_cast hfinal_nat

lemma image_scale_levels_spec (s0 s1 c0 c1 : Nat) (h0 : 0 < s0) (h1 : 0 < s1)
    (hc0 : 0 < c0) (hc1 : 0 < c1) :
    ∃ k : ℤ, max ((s0 : ℚ) / c0) ((s1 : ℚ) / c1) ≤ (2 : ℚ) ^ k ∧
      (2 : ℚ) ^ (k - 1) < max ((s0 : ℚ) / c0) ((s1 : ℚ) / c1) ∧
      image_scale_levels s0 s1 c0 c1 = min 10 k := by
  obtain ⟨hu0, hl0⟩ := ceilLog2Ratio_spec s0 c0 h0 hc0
  obtain ⟨hu1, hl1⟩ := ceilLog2Ratio_spec s1 c1 h1 hc1
  refine ⟨max (ceilLog2Ratio s0 c0) (ceilLog2Ratio s1 c1), max_le ?_ ?_, ?_, rfl⟩
  · exact hu0.trans (zpow_le_zpow_right₀ (by norm_num) (le_max_left _ _))
  · exact hu1.trans (zpow_le_zpow_right₀ (by norm_num) (le_max_right _ _))
  · rcases le_total (ceilLog2Ratio s0 c0) (ceilLog2Ratio s1 c1) with hle | hle
    · rw [max_eq_right hle]
      exact hl1.trans_le (le_max_right _ _)
    · rw [max_eq_left hle]
      exact hl0.trans_le (le_max_left _ _)

lemma downsample_slice_slice (a b : Option Int) (j : Nat) :
    downsample_slice (.slice a b none) (j : Int) =
      .ok (.slice (a.map (fun v => v.fdiv (2 ^ j))) (b.map (fun v => v.fdiv (2 ^ j))) none) := by
  by_cases hj : j = 0
  · subst hj
    simp only [downsample_slice, Nat.cast_zero, if_pos rfl, pow_zero]
    cases a <;> cases b <;> simp [Int.fdiv_one]
  · have hj' : ((j : Int)) ≠ 0 := by exact_mod_cast hj
    have htn : ((j : Int)).toNat = j := by omega
    simp [downsample_slice, hj', htn]

lemma foldl_min_le_init (l : List Int) : ∀ a : Int, l.foldl min a ≤ a := by
  induction l with
  | nil => intro a; simp
  | cons x xs ih =>
    intro a
    calc xs.foldl min (min a x) ≤ min a x := ih (min a x)
    _ ≤ a := min_le_left a x

lemma le_foldl_max_init (l : List Int) : ∀ a : Int, a ≤ l.foldl max a := by
  induction l with
  | nil => intro a; simp
  | cons x xs ih =>
    intro a
    calc a ≤ max a x := le_max_left a x
    _ ≤ xs.foldl max (max a x) := ih (max a x)

lemma listMin_le_listMax {l : List Int} (hl : l ≠ []) : listMin l ≤ listMax l := by
  match l, hl with
  | x :: xs, _ =>
    calc listMin (x :: xs) ≤ x := foldl_min_le_init xs x
    _ ≤ listMax (x :: xs) := le_foldl_max_init xs x

lemma numCols_replicate (n : Nat) (r : List Int) (hn : n ≠ 0) :
    numCols (List.replicate n r) = r.length := by
  cases n with
  | zero => exact absurd rfl hn
  | succ m => rw [List.replicate_succ]; rfl

lemma build_from_image_attr (img : List (List Int)) (c0 c1 : Nat)
    (xl yl : Option (Nat × Nat)) :
    (build_from_image img (c0, c1) true xl yl).scale_levels_attr =
      some (image_scale_levels (build_from_image img (c0, c1) true xl yl).shape0
        (build_from_image img (c0, c1) true xl yl).shape1 c0 c1) := rfl

lemma build_from_tiffdir_ok_fields (files : List Int) (srcShape : Nat × Nat)
    (srcDtype : Dtype) (chunk : Nat × Nat) (ms : Bool)
    (xl yl : Option (Nat × Nat)) (zlims : Option (Option Int × Option Int))
    (zstride : Option Int) (vb : VolumeBuild)
    (h : build_from_tiffdir files srcShape srcDtype chunk ms xl yl zlims zstride = .ok vb) :
    vb.shape.1 = croppedDim srcShape.1 xl ∧
    vb.shape.2.1 = croppedDim srcShape.2 yl ∧
    vb.level0Dtype = srcDtype ∧
    vb.scale_levels_attr =
      (if ms then some (image_scale_levels (croppedDim srcShape.1 xl)
        (croppedDim srcShape.2 yl) chunk.1 chunk.2) else none) ∧
    vb.downsampledDtypes =
      (if ms then List.replicate (image_scale_levels (croppedDim srcShape.1 xl)
        (croppedDim srcShape.2 yl) chunk.1 chunk.2).toNat Dtype.float64 else []) := by
  cases hcz : computeZRange files zlims zstride with
  | error e =>
    rw [build_from_tiffdir] at h
    rw [hcz] at h
    exact absurd h (by simp [Bind.bind, Except.bind])
  | ok zr =>
    cases hcs : checkSlices zr files with
    | error e =>
      rw [build_from_tiffdir] at h
      rw [hcz] at h
      simp only [Bind.bind, Except.bind, hcs] at h
      exact absurd h (by simp)
    | ok u =>
      rw [build_from_tiffdir] at h
      rw [hcz] at h
      simp only [Bind.bind, Except.bind, hcs, Except.ok.injEq] at h
      subst h
      exact ⟨rfl, rfl, rfl, rfl, rfl⟩

lemma isl_bounds (n0 n1 c0 c1 : Nat) :
    image_scale_levels n0 n1 c0 c1 ≤ 10 ∧
    (n0 ≤ c0 → n1 ≤ c1 → 0 < n0 → 0 < n1 → (c0 < 2 * n0 ∨ c1 < 2 * n1) →
      image_scale_levels n0 n1 c0 c1 = 0) ∧
    (2 * n0 ≤ c0 → 2 * n1 ≤ c1 → 0 < n0 → 0 < n1 →
      image_scale_levels n0 n1 c0 c1 ≤ -1) := by
  refine ⟨min_le_left _ _, ?_, ?_⟩
  · intro hle0 hle1 hp0 hp1 hdom
    have hn0 : ceilLog2Ratio n0 c0 ≤ 0 := ceilLog2Ratio_nonpos hle0
    have hn1 : ceilLog2Ratio n1 c1 ≤ 0 := ceilLog2Ratio_nonpos hle1
    rcases hdom with hd | hd
    · have h0 : ceilLog2Ratio n0 c0 = 0 := ceilLog2Ratio_eq_zero hp0 hle0 hd
      rw [image_scale_levels, h0]
      omega
    · have h1 : ceilLog2Ratio n1 c1 = 0 := ceilLog2Ratio_eq_zero hp1 hle1 hd
      rw [image_scale_levels, h1]
      omega
  · intro hs0 hs1 hp0 hp1
    have h0 : ceilLog2Ratio n0 c0 ≤ -1 := ceilLog2Ratio_neg hp0 hs0
    have h1 : ceilLog2Ratio n1 c1 ≤ -1 := ceilLog2Ratio_neg hp1 hs1
    rw [image_scale_levels]
    omega

lemma promote_ne_bool (a b : Dtype) : promote a b ≠ .bool8 := by
  cases a <;> cases b <;> decide

lemma promote_eq_uint8 {a b : Dtype} (h : promote a b = .uint8) :
    a = .uint8 ∧ b = .uint8 := by
  revert h
  cases a <;> cases b <;> decide

lemma min_scalar_type_uint8 {v : Int} (h : min_scalar_type v = .uint8) :
    0 ≤ v ∧ v < 256 := by
  by_cases h0 : 0 ≤ v
  · by_cases h256 : v < 256
    · exact ⟨h0, h256⟩
    · exfalso
      unfold min_scalar_type at h
      rw [if_pos h0, if_neg h256] at h
      split_ifs at h
  · exfalso
    unfold min_scalar_type at h
    rw [if_neg h0] at h
    split_ifs at h

lemma min_scalar_type_ne_float (v : Int) : min_scalar_type v ≠ .float64 := by
  unfold min_scalar_type
  split_ifs <;> exact Dtype.noConfusion

lemma min_scalar_type_bounds (v : Int) (hlo : -9223372036854775808 ≤ v)
    (hhi : v < 18446744073709551616) :
    dtLo (min_scalar_type v) ≤ v ∧ v ≤ dtHi (min_scalar_type v) := by
  unfold min_scalar_type
  split_ifs <;> simp only [dtLo, dtHi] <;> omega

lemma promote_lo (a b : Dtype) (ha : a ≠ .float64) (hb : b ≠ .float64)
    (h : promote a b ≠ .float64) : dtLo (promote a b) ≤ dtLo a := by
  revert ha hb h
  cases a <;> cases b <;> decide

lemma promote_hi (a b : Dtype) (ha : a ≠ .float64) (hb : b ≠ .float64)
    (h : promote a b ≠ .float64) : dtHi b ≤ dtHi (promote a b) := by
  revert ha hb h
  cases a <;> cases b <;> decide

lemma get_min_datatype_bool_iff (mn mx : Int) (hle : mn ≤ mx) :
    get_min_datatype mn mx = .bool8 ↔ (0 ≤ mn ∧ mx ≤ 1) := by
  constructor
  · intro h
    simp only [get_min_datatype] at h
    by_cases hc : promote (min_scalar_type mn) (min_scalar_type mx) = .uint8 ∧
        (mx = 0 ∨ mx = 1)
    · obtain ⟨hp, hmx⟩ := hc
      have h8 := (promote_eq_uint8 hp).1
      have h0 := (min_scalar_type_uint8 h8).1
      exact ⟨h0, by omega⟩
    · rw [if_neg hc] at h
      exact absurd h (promote_ne_bool _ _)
  · rintro ⟨h0, h1⟩
    have hmx01 : mx = 0 ∨ mx = 1 := by omega
    have hmnt : min_scalar_type mn = .uint8 := by
      unfold min_scalar_type
      rw [if_pos h0, if_pos (by omega : mn < 256)]
    have hmxt : min_scalar_type mx = .uint8 := by
      unfold min_scalar_type
      rw [if_pos (by omega : (0 : Int) ≤ mx), if_pos (by omega : mx < 256)]
    simp only [get_min_datatype, hmnt, hmxt]
    rw [if_pos ⟨by decide, hmx01⟩]

lemma get_min_datatype_bounds (mn mx : Int) (hle : mn ≤ mx)
    (hlo : -9223372036854775808 ≤ mn) (hhi : mx < 18446744073709551616)
    (hf : get_min_datatype mn mx ≠ .float64) :
    dtLo (get_min_datatype mn mx) ≤ mn ∧ mx ≤ dtHi (get_min_datatype mn mx) := by
  have hmn_b := min_scalar_type_bounds mn hlo (by omega)
  have hmx_b := min_scalar_type_bounds mx (by omega) hhi
  by_cases hc : promote (min_scalar_type mn) (min_scalar_type mx) = .uint8 ∧
      (mx = 0 ∨ mx = 1)
  · have hbool : get_min_datatype mn mx = .bool8 := by
      simp only [get_min_datatype]
      rw [if_pos hc]
    obtain ⟨hp, hmx01⟩ := hc
    have h8 := promote_eq_uint8 hp
    have h0 := (min_scalar_type_uint8 h8.1).1
    rw [hbool]
    refine ⟨?_, ?_⟩ <;> simp only [dtLo, dtHi] <;> omega
  · have heq : get_min_datatype mn mx =
        promote (min_scalar_type mn) (min_scalar_type mx) := by
      simp only [get_min_datatype]
      rw [if_neg hc]
    rw [heq] at hf ⊢
    exact ⟨le_trans (promote_lo _ _ (min_scalar_type_ne_float mn)
        (min_scalar_type_ne_float mx) hf) hmn_b.1,
      le_trans hmx_b.2 (promote_hi _ _ (min_scalar_type_ne_float mn)
        (min_scalar_type_ne_float mx) hf)⟩

lemma finishCommon_two_slices (sl : Int) (ox0 ox1 oy0 oy1 : Option Int) (j : Nat)
    (hj : (j : Int) ≤ sl) :
    finishCommon sl [.slice ox0 ox1 none, .slice oy0 oy1 none] (j : Int) =
      .ok ⟨(j : Int),
        [.slice (ox0.map (fun v => v.fdiv (2 ^ j))) (ox1.map (fun v => v.fdiv (2 ^ j))) none,
         .slice (oy0.map (fun v => v.fdiv (2 ^ j))) (oy1.map (fun v => v.fdiv (2 ^ j))) none]⟩ := by
  have h1 : ¬ ((j : Int) < 0) := by omega
  have h2 : ¬ (sl < (j : Int)) := not_lt.mpr hj
  simp only [finishCommon, if_neg h1, if_neg h2, List.mapM_cons, List.mapM_nil,
    downsample_slice_slice, bind, Except.bind, pure, Except.pure]

lemma finishCommon_three_slices (sl : Int) (ox0 ox1 oy0 oy1 oz0 oz1 : Option Int) (j : Nat)
    (hj : (j : Int) ≤ sl) :
    finishCommon sl [.slice ox0 ox1 none, .slice oy0 oy1 none, .slice oz0 oz1 none] (j : Int) =
      .ok ⟨(j : Int),
        [.slice (ox0.map (fun v => v.fdiv (2 ^ j))) (ox1.map (fun v => v.fdiv (2 ^ j))) none,
         .slice (oy0.map (fun v => v.fdiv (2 ^ j))) (oy1.map (fun v => v.fdiv (2 ^ j))) none,
         .slice (oz0.map (fun v => v.fdiv (2 ^ j))) (oz1.map (fun v => v.fdiv (2 ^ j))) none]⟩ := by
  have h1 : ¬ ((j : Int) < 0) := by omega
  have h2 : ¬ (sl < (j : Int)) := not_lt.mpr hj
  simp only [finishCommon, if_neg h1, if_neg h2, List.mapM_cons, List.mapM_nil,
    downsample_slice_slice, bind, Except.bind, pure, Except.pure]

/-! Claim theorems. -/

/-- C1, counterexample: a multiscale build of a 1×1 image with the
default chunk size persists `scale_levels = -10`, although the image's
maximal dimension (1) is at most the chunk size (1024), so the claimed
invariant `0 ≤ scale_levels` (and the claimed value `0`) fails. -/
theorem C1_counterexample :
    (build_from_image [[0]] (1024, 1024) true none none).scale_levels_attr = some (-10) ∧
    max (build_from_image [[0]] (1024, 1024) true none none).shape0
      (build_from_image [[0]] (1024, 1024) true none none).shape1 ≤ 1024 ∧
    ¬ (0 : Int) ≤ -10 :=
  ⟨rfl, by decide, by decide⟩

/-- C1 (amended): for every multiscale build, image or volume, the
persisted `scale_levels` is at most 10; it equals 0 when the cropped
shape is at most the chunk shape per axis with some axis exceeding
half its chunk dimension; and it is negative (at most -1) when every
axis is at most half its chunk dimension — there is no lower clamp. -/
theorem C1_amended_scale_levels :
    (∀ (img : List (List Int)) (c0 c1 : Nat) (xl yl : Option (Nat × Nat)) (s : Int),
      (build_from_image img (c0, c1) true xl yl).scale_levels_attr = some s →
      s ≤ 10 ∧
      ((build_from_image img (c0, c1) true xl yl).shape0 ≤ c0 →
       (build_from_image img (c0, c1) true xl yl).shape1 ≤ c1 →
       0 < (build_from_image img (c0, c1) true xl yl).shape0 →
       0 < (build_from_image img (c0, c1) true xl yl).shape1 →
       (c0 < 2 * (build_from_image img (c0, c1) true xl yl).shape0 ∨
        c1 < 2 * (build_from_image img (c0, c1) true xl yl).shape1) →
       s = 0) ∧
      (2 * (build_from_image img (c0, c1) true xl yl).shape0 ≤ c0 →
       2 * (build_from_image img (c0, c1) true xl yl).shape1 ≤ c1 →
       0 < (build_from_image img (c0, c1) true xl yl).shape0 →
       0 < (build_from_image img (c0, c1) true xl yl).shape1 →
       s ≤ -1)) ∧
    (∀ (files : List Int) (srcShape : Nat × Nat) (srcDtype : Dtype) (c0 c1 : Nat)
        (xl yl : Option (Nat × Nat)) (zlims : Option (Option Int × Option Int))
        (zstride : Option Int) (vb : VolumeBuild) (s : Int),
      build_from_tiffdir files srcShape srcDtype (c0, c1) true xl yl zlims zstride = .ok vb →
      vb.scale_levels_attr = some s →
      s ≤ 10 ∧
      (vb.shape.1 ≤ c0 → vb.shape.2.1 ≤ c1 → 0 < vb.shape.1 → 0 < vb.shape.2.1 →
       (c0 < 2 * vb.shape.1 ∨ c1 < 2 * vb.shape.2.1) → s = 0) ∧
      (2 * vb.shape.1 ≤ c0 → 2 * vb.shape.2.1 ≤ c1 → 0 < vb.shape.1 → 0 < vb.shape.2.1 →
       s ≤ -1)) := by
  constructor
  · intro img c0 c1 xl yl s hs
    rw [build_from_image_attr, Option.some.injEq] at hs
    obtain ⟨hle, heq0, hneg⟩ :=
      isl_bounds (build_from_image img (c0, c1) true xl yl).shape0
        (build_from_image img (c0, c1) true xl yl).shape1 c0 c1
    subst hs
    exact ⟨hle, fun a b c d e => heq0 a b c d e, fun a b c d => hneg a b c d⟩
  · intro files srcShape srcDtype c0 c1 xl yl zlims zstride vb s hok hs
    obtain ⟨hx, hy, _, hattr, _⟩ := build_from_tiffdir_ok_fields files srcShape srcDtype
      (c0, c1) true xl yl zlims zstride vb hok
    rw [hattr, if_pos rfl, Option.some.injEq] at hs
    obtain ⟨hle, heq0, hneg⟩ :=
      isl_bounds (croppedDim srcShape.1 xl) (croppedDim srcShape.2 yl) c0 c1
    subst hs
    rw [hx, hy]
    exact ⟨hle, fun a b c d e => heq0 a b c d e, fun a b c d => hneg a b c d⟩

/-- C1 witness: concrete instances of both parts — a 2×2 image with
chunk (3,3) yields `scale_levels = 0`, and a two-slice volume of plane
shape 2×2 with chunk (3,3) yields `scale_levels = 0`. -/
theorem C1_amended_scale_levels_witness :
    ((0 : Int) ≤ 10 ∧
      ((build_from_image [[0, 1], [1, 0]] (3, 3) true none none).shape0 ≤ 3 →
       (build_from_image [[0, 1], [1, 0]] (3, 3) true none none).shape1 ≤ 3 →
       0 < (build_from_image [[0, 1], [1, 0]] (3, 3) true none none).shape0 →
       0 < (build_from_image [[0, 1], [1, 0]] (3, 3) true none none).shape1 →
       (3 < 2 * (build_from_image [[0, 1], [1, 0]] (3, 3) true none none).shape0 ∨
        3 < 2 * (build_from_image [[0, 1], [1, 0]] (3, 3) true none none).shape1) →
       (0 : Int) = 0) ∧
      (2 * (build_from_image [[0, 1], [1, 0]] (3, 3) true none none).shape0 ≤ 3 →
       2 * (build_from_image [[0, 1], [1, 0]] (3, 3) true none none).shape1 ≤ 3 →
       0 < (build_from_image [[0, 1], [1, 0]] (3, 3) true none none).shape0 →
       0 < (build_from_image [[0, 1], [1, 0]] (3, 3) true none none).shape1 →
       (0 : Int) ≤ -1)) ∧
    ((0 : Int) ≤ 10 ∧
      ((⟨(2, 2, 2), .uint8, true, some 0, []⟩ : VolumeBuild).shape.1 ≤ 3 →
       (⟨(2, 2, 2), .uint8, true, some 0, []⟩ : VolumeBuild).shape.2.1 ≤ 3 →
       0 < (⟨(2, 2, 2), .uint8, true, some 0, []⟩ : VolumeBuild).shape.1 →
       0 < (⟨(2, 2, 2), .uint8, true, some 0, []⟩ : VolumeBuild).shape.2.1 →
       (3 < 2 * (⟨(2, 2, 2), .uint8, true, some 0, []⟩ : VolumeBuild).shape.1 ∨
        3 < 2 * (⟨(2, 2, 2), .uint8, true, some 0, []⟩ : VolumeBuild).shape.2.1) →
       (0 : Int) = 0) ∧
      (2 * (⟨(2, 2, 2), .uint8, true, some 0, []⟩ : VolumeBuild).shape.1 ≤ 3 →
       2 * (⟨(2, 2, 2), .uint8, true, some 0, []⟩ : VolumeBuild).shape.2.1 ≤ 3 →
       0 < (⟨(2, 2, 2), .uint8, true, some 0, []⟩ : VolumeBuild).shape.1 →
       0 < (⟨(2, 2, 2), .uint8, true, some 0, []⟩ : VolumeBuild).shape.2.1 →
       (0 : Int) ≤ -1)) :=
  ⟨C1_amended_scale_levels.1 [[0, 1], [1, 0]] 3 3 none none 0 rfl,
   C1_amended_scale_levels.2 [0, 1] (2, 2) .uint8 3 3 none none none none
     ⟨(2, 2, 2), .uint8, true, some 0, []⟩ 0 rfl rfl⟩

/-- C2: an implicit-level all-range request resolves to the level `l`
reached by starting at 0 and, while `l < scale_levels` and the maximal
span (stop-or-extent minus start-or-zero) strictly exceeds
`CHUNK_SIZE // 4`, incrementing `l` and floor halving that span — so
every level below `l` had its span strictly above the quarter chunk,
a span exactly equal to it stops the loop, and the read is issued at
level `l` with both bounds floor divided by `2^l`.  In particular, on
a store with `scale_levels = 2` the request
`(slice(0,4000), slice(0,4000))` resolves to level 2 with selectors
`(slice(0,1000), slice(0,1000))`. -/
theorem C2_implicit_lod (h : ImageHandle) (hsl : 0 ≤ h.scale_levels)
    (ox0 ox1 oy0 oy1 : Option Int) :
    (∃ l : Nat, (l : Int) ≤ h.scale_levels ∧
      (∀ m : Nat, m < l → CHUNK_SIZE.fdiv 4 <
        halveN (max ((ox1.getD h.shape0) - (ox0.getD 0))
                   ((oy1.getD h.shape1) - (oy0.getD 0))) m) ∧
      ((l : Int) < h.scale_levels →
        halveN (max ((ox1.getD h.shape0) - (ox0.getD 0))
                   ((oy1.getD h.shape1) - (oy0.getD 0))) l ≤ CHUNK_SIZE.fdiv 4) ∧
      imageGetitem h [.slice ox0 ox1 none, .slice oy0 oy1 none] =
        .ok ⟨(l : Int),
          [.slice (ox0.map (fun v => v.fdiv (2 ^ l))) (ox1.map (fun v => v.fdiv (2 ^ l))) none,
           .slice (oy0.map (fun v => v.fdiv (2 ^ l))) (oy1.map (fun v => v.fdiv (2 ^ l))) none]⟩) ∧
    imageGetitem ⟨4096, 4096, 2⟩
        [.slice (some 0) (some 4000) none, .slice (some 0) (some 4000) none] =
      .ok ⟨2, [.slice (some 0) (some 1000) none, .slice (some 0) (some 1000) none]⟩ := by
  constructor
  · obtain ⟨j, hjle, heq, hall, hstop⟩ :=
      scaleLoop_spec h.scale_levels
        (max ((ox1.getD h.shape0) - (ox0.getD 0)) ((oy1.getD h.shape1) - (oy0.getD 0))) hsl
    refine ⟨j, hjle, hall, hstop, ?_⟩
    have hstep : imageGetitem h [.slice ox0 ox1 none, .slice oy0 oy1 none] =
        finishCommon h.scale_levels [.slice ox0 ox1 none, .slice oy0 oy1 none]
          (scaleLoop h.scale_levels 0
            (max ((ox1.getD h.shape0) - (ox0.getD 0)) ((oy1.getD h.shape1) - (oy0.getD 0)))).1 :=
      rfl
    rw [hstep, heq]
    exact finishCommon_two_slices h.scale_levels ox0 ox1 oy0 oy1 j hjle
  · rfl

/-- C2 witness: the general statement instantiated on the scenario
store (shape 4096×4096, two stored levels) and the request
`(slice(0,4000), slice(0,4000))`. -/
theorem C2_implicit_lod_witness :
    (∃ l : Nat, (l : Int) ≤ (2 : Int) ∧
      (∀ m : Nat, m < l → CHUNK_SIZE.fdiv 4 <
        halveN (max (((some (4000 : Int)).getD 4096) - ((some (0 : Int)).getD 0))
                   (((some (4000 : Int)).getD 4096) - ((some (0 : Int)).getD 0))) m) ∧
      ((l : Int) < (2 : Int) →
        halveN (max (((some (4000 : Int)).getD 4096) - ((some (0 : Int)).getD 0))
                   (((some (4000 : Int)).getD 4096) - ((some (0 : Int)).getD 0))) l ≤
          CHUNK_SIZE.fdiv 4) ∧
      imageGetitem ⟨4096, 4096, 2⟩
          [.slice (some 0) (some 4000) none, .slice (some 0) (some 4000) none] =
        .ok ⟨(l : Int),
          [.slice ((some (0 : Int)).map (fun v => v.fdiv (2 ^ l)))
              ((some (4000 : Int)).map (fun v => v.fdiv (2 ^ l))) none,
           .slice ((some (0 : Int)).map (fun v => v.fdiv (2 ^ l)))
              ((some (4000 : Int)).map (fun v => v.fdiv (2 ^ l))) none]⟩) ∧
    imageGetitem ⟨4096, 4096, 2⟩
        [.slice (some 0) (some 4000) none, .slice (some 0) (some 4000) none] =
      .ok ⟨2, [.slice (some 0) (some 1000) none, .slice (some 0) (some 1000) none]⟩ :=
  C2_implicit_lod ⟨4096, 4096, 2⟩ (by decide) (some 0) (some 4000) (some 0) (some 4000)

/-- C3: for every multiscale image build with positive cropped shape
and chunk dimensions, the persisted `scale_levels` equals
`min(10, k)` where `k` is the exact ceiling of the base-2 logarithm of
the maximal per-axis shape/chunk ratio; in particular the build of a
4096×4096 image with chunk 1024 persists `scale_levels = 2`. -/
theorem C3_scale_levels_formula (img : List (List Int)) (c0 c1 : Nat)
    (xl yl : Option (Nat × Nat))
    (h0 : 0 < (build_from_image img (c0, c1) true xl yl).shape0)
    (h1 : 0 < (build_from_image img (c0, c1) true xl yl).shape1)
    (hc0 : 0 < c0) (hc1 : 0 < c1) :
    (∃ k : ℤ,
      max (((build_from_image img (c0, c1) true xl yl).shape0 : ℚ) / c0)
          (((build_from_image img (c0, c1) true xl yl).shape1 : ℚ) / c1) ≤ (2 : ℚ) ^ k ∧
      (2 : ℚ) ^ (k - 1) <
        max (((build_from_image img (c0, c1) true xl yl).shape0 : ℚ) / c0)
            (((build_from_image img (c0, c1) true xl yl).shape1 : ℚ) / c1) ∧
      (build_from_image img (c0, c1) true xl yl).scale_levels_attr = some (min 10 k)) ∧
    (build_from_image (List.replicate 4096 (List.replicate 4096 (0 : Int)))
        (1024, 1024) true none none).scale_levels_attr = some 2 := by
  constructor
  · obtain ⟨k, hu, hl, hisl⟩ :=
      image_scale_levels_spec (build_from_image img (c0, c1) true xl yl).shape0
        (build_from_image img (c0, c1) true xl yl).shape1 c0 c1 h0 h1 hc0 hc1
    exact ⟨k, hu, hl, by rw [build_from_image_attr, hisl]⟩
  · simp only [build_from_image, crop2, applyLims, List.map_replicate, List.length_replicate]
    rw [numCols_replicate 4096 _ (by decide)]
    simp only [List.length_replicate, if_pos]
    rfl

/-- C3 witness: the formula instantiated on the scenario build
(4096×4096 image, chunk 1024). -/
theorem C3_scale_levels_formula_witness :
    (∃ k : ℤ,
      max (((build_from_image (List.replicate 4096 (List.replicate 4096 (0 : Int)))
          (1024, 1024) true none none).shape0 : ℚ) / 1024)
          (((build_from_image (List.replicate 4096 (List.replicate 4096 (0 : Int)))
          (1024, 1024) true none none).shape1 : ℚ) / 1024) ≤ (2 : ℚ) ^ k ∧
      (2 : ℚ) ^ (k - 1) <
        max (((build_from_image (List.replicate 4096 (List.replicate 4096 (0 : Int)))
            (1024, 1024) true none none).shape0 : ℚ) / 1024)
            (((build_from_image (List.replicate 4096 (List.replicate 4096 (0 : Int)))
            (1024, 1024) true none none).shape1 : ℚ) / 1024) ∧
      (build_from_image (List.replicate 4096 (List.replicate 4096 (0 : Int)))
          (1024, 1024) true none none).scale_levels_attr = some (min 10 k)) ∧
    (build_from_image (List.replicate 4096 (List.replicate 4096 (0 : Int)))
        (1024, 1024) true none none).scale_levels_attr = some 2 :=
  C3_scale_levels_formula (List.replicate 4096 (List.replicate 4096 (0 : Int))) 1024 1024
    none none
    (by simp only [build_from_image, crop2, applyLims, List.map_replicate,
          List.length_replicate]; decide)
    (by simp only [build_from_image, crop2, applyLims, List.map_replicate,
          List.length_replicate]
        rw [numCols_replicate 4096 _ (by decide)]
        simp only [List.length_replicate]
        decide)
    (by decide) (by decide)

/-- C4, counterexample: a query-time explicit-level request at level 0
carrying a stepped range succeeds (no step validation happens at scale
0), contradicting the claim that every request with a non-null step
fails with the unsupported-step error. -/
theorem C4_counterexample :
    imageGetitem ⟨4096, 4096, 2⟩
        [.slice (some 0) (some 100) (some 2), .slice none none none, .int 0] =
      .ok ⟨0, [.slice (some 0) (some 100) (some 2), .slice none none none]⟩ := rfl

/-- C4 (amended): a non-null step fails with the unsupported-step
error only on the paths that inspect it — the implicit all-range form
(whose span computation checks the step) and the explicit-level form
at a level ≥ 1 (whose rebasing checks it).  Explicit level 0 and the
implicit form containing a scalar pass stepped selectors through to
the store unchecked; build-time cropping inputs are bound pairs on
which no step is expressible. -/
theorem C4_amended_step_errors (h : ImageHandle) (a b s : Int)
    (oy0 oy1 oys : Option Int) :
    imageGetitem h [.slice (some a) (some b) (some s), .slice oy0 oy1 oys] =
      .error .stepSlices ∧
    (∀ l : Int, 1 ≤ l → l ≤ h.scale_levels →
      imageGetitem h [.slice (some a) (some b) (some s), .slice oy0 oy1 oys, .int l] =
        .error .stepSlices) ∧
    (0 ≤ h.scale_levels →
      imageGetitem h [.slice (some a) (some b) (some s), .slice oy0 oy1 oys, .int 0] =
        .ok ⟨0, [.slice (some a) (some b) (some s), .slice oy0 oy1 oys]⟩) ∧
    (∀ i : Int, imageGetitem h [.int i, .slice (some a) (some b) (some s)] =
      .ok ⟨0, [.int i, .slice (some a) (some b) (some s)]⟩) := by
  refine ⟨rfl, ?_, ?_, fun i => rfl⟩
  · intro l h1 h2
    have hne : ¬ (l = 0) := by omega
    have hd : downsample_slice (.slice (some a) (some b) (some s)) l =
        .error .stepSlices := by
      simp only [downsample_slice, if_neg hne]
    show finishCommon h.scale_levels
        [.slice (some a) (some b) (some s), .slice oy0 oy1 oys] l = .error .stepSlices
    simp only [finishCommon, if_neg (by omega : ¬ l < 0), if_neg (not_lt.mpr h2),
      List.mapM_cons, hd, bind, Except.bind]
  · intro hsl
    show finishCommon h.scale_levels
        [.slice (some a) (some b) (some s), .slice oy0 oy1 oys] 0 =
      .ok ⟨0, [.slice (some a) (some b) (some s), .slice oy0 oy1 oys]⟩
    simp only [finishCommon, if_neg (by omega : ¬ (0 : Int) < 0),
      if_neg (not_lt.mpr hsl)]
    rfl

/-- C4 witness: the amended statement instantiated on the scenario
store with the stepped range `slice(0, 100, 2)` and explicit
levels 1 and 0 and the scalar 5. -/
theorem C4_amended_step_errors_witness :
    imageGetitem ⟨4096, 4096, 2⟩
        [.slice (some 0) (some 100) (some 2), .slice none none none] =
      .error .stepSlices ∧
    imageGetitem ⟨4096, 4096, 2⟩
        [.slice (some 0) (some 100) (some 2), .slice none none none, .int 1] =
      .error .stepSlices ∧
    imageGetitem ⟨4096, 4096, 2⟩
        [.slice (some 0) (some 100) (some 2), .slice none none none, .int 0] =
      .ok ⟨0, [.slice (some 0) (some 100) (some 2), .slice none none none]⟩ ∧
    imageGetitem ⟨4096, 4096, 2⟩
        [.int 5, .slice (some 0) (some 100) (some 2)] =
      .ok ⟨0, [.int 5, .slice (some 0) (some 100) (some 2)]⟩ := by
  obtain ⟨h1, h2, h3, h4⟩ := C4_amended_step_errors ⟨4096, 4096, 2⟩ 0 100 2 none none none
  exact ⟨h1, h2 1 (by decide) (by decide), h3 (by decide), h4 5⟩

/-- C5, counterexample: cropping `[[0,1],[300,1]]` to its first row
leaves data with value range {0,1}, whose narrowest datatype is
boolean, yet the build picks `uint16` — the narrowing is computed from
the full data before the crop, not from the cropped data. -/
theorem C5_counterexample :
    (build_from_image [[0, 1], [300, 1]] (1024, 1024) true (some (0, 1)) none).dtype =
      .uint16 ∧
    (build_from_image [[0, 1], [300, 1]] (1024, 1024) true (some (0, 1)) none).level0 =
      [[0, 1]] ∧
    get_min_datatype (listMin [0, 1]) (listMax [0, 1]) = .bool8 ∧
    Dtype.uint16 ≠ Dtype.bool8 :=
  ⟨rfl, rfl, rfl, by decide⟩

/-- C5 (amended): the build casts the source data before cropping, to
the narrowest datatype for the full data's observed minimum and
maximum; the boolean demotion applies exactly when the full minimum is
nonnegative and the full maximum is at most 1 (so an all-zero array is
also demoted), and for non-float results the chosen datatype
represents the full observed range. -/
theorem C5_amended_dtype (img : List (List Int)) (chunk : Nat × Nat) (ms : Bool)
    (xl yl : Option (Nat × Nat)) (hne : img.flatten ≠ [])
    (hlo : -9223372036854775808 ≤ listMin img.flatten)
    (hhi : listMax img.flatten < 18446744073709551616) :
    (build_from_image img chunk ms xl yl).dtype =
      get_min_datatype (listMin img.flatten) (listMax img.flatten) ∧
    ((build_from_image img chunk ms xl yl).dtype = .bool8 ↔
      0 ≤ listMin img.flatten ∧ listMax img.flatten ≤ 1) ∧
    ((build_from_image img chunk ms xl yl).dtype ≠ .float64 →
      dtLo (build_from_image img chunk ms xl yl).dtype ≤ listMin img.flatten ∧
      listMax img.flatten ≤ dtHi (build_from_image img chunk ms xl yl).dtype) := by
  have hle : listMin img.flatten ≤ listMax img.flatten := listMin_le_listMax hne
  have hdt : (build_from_image img chunk ms xl yl).dtype =
      get_min_datatype (listMin img.flatten) (listMax img.flatten) := rfl
  refine ⟨hdt, ?_, ?_⟩
  · rw [hdt]
    exact get_min_datatype_bool_iff (listMin img.flatten) (listMax img.flatten) hle
  · rw [hdt]
    intro hf
    exact get_min_datatype_bounds (listMin img.flatten) (listMax img.flatten) hle hlo hhi hf

/-- C5 witness: the amended statement instantiated on the 2×2 image
`[[0,2],[5,1]]`, whose build dtype is `uint8`. -/
theorem C5_amended_dtype_witness :
    (build_from_image [[0, 2], [5, 1]] (1024, 1024) true none none).dtype =
      get_min_datatype (listMin ([[0, 2], [5, 1]] : List (List Int)).flatten)
        (listMax ([[0, 2], [5, 1]] : List (List Int)).flatten) ∧
    ((build_from_image [[0, 2], [5, 1]] (1024, 1024) true none none).dtype = .bool8 ↔
      0 ≤ listMin ([[0, 2], [5, 1]] : List (List Int)).flatten ∧
      listMax ([[0, 2], [5, 1]] : List (List Int)).flatten ≤ 1) ∧
    ((build_from_image [[0, 2], [5, 1]] (1024, 1024) true none none).dtype ≠ .float64 →
      dtLo (build_from_image [[0, 2], [5, 1]] (1024, 1024) true none none).dtype ≤
        listMin ([[0, 2], [5, 1]] : List (List Int)).flatten ∧
      listMax ([[0, 2], [5, 1]] : List (List Int)).flatten ≤
        dtHi (build_from_image [[0, 2], [5, 1]] (1024, 1024) true none none).dtype) :=
  C5_amended_dtype [[0, 2], [5, 1]] (1024, 1024) true none none (by decide)
    (by decide) (by decide)

/-- C6: in the image case each stored downsampled level keeps the
level-0 dtype (the arrays are created from the already-cast data), but
in the volume case the downsampled arrays are created by `root.zeros`
with no dtype, so a volume built from `uint16` sources stores its two
downsampled levels as `float64` — the cross-level dtype invariant the
claim states fails on the volume side even though the written data was
cast back to the level-0 dtype. -/
theorem C6_downsampled_dtypes :
    (build_from_tiffdir [0, 1, 2, 3] (4096, 4096) .uint16 (1024, 1024) true
        none none none none =
      .ok ⟨(4096, 4096, 4), .uint16, true, some 2, [.float64, .float64]⟩ ∧
      ([Dtype.float64, Dtype.float64] ≠ List.replicate 2 Dtype.uint16)) ∧
    ((build_from_image [[300, 0, 0, 0, 0, 0, 0, 1]] (2, 2) true none none).dtype =
        .uint16 ∧
      (build_from_image [[300, 0, 0, 0, 0, 0, 0, 1]] (2, 2) true none none).downsampledDtypes =
        List.replicate 2
          (build_from_image [[300, 0, 0, 0, 0, 0, 0, 1]] (2, 2) true none none).dtype) :=
  ⟨⟨rfl, by decide⟩, ⟨rfl, rfl⟩⟩

/-- C7: an implicit-level request containing a scalar selector reads
level 0 with all selectors unchanged, for images and volumes alike,
whatever `scale_levels` is — even though the pure range request
covering the same region on the scenario store resolves to level 2. -/
theorem C7_scalar_bypass :
    (∀ (h : ImageHandle) (x y : Sel), (x.isInt || y.isInt) = true →
      imageGetitem h [x, y] = .ok ⟨0, [x, y]⟩) ∧
    (∀ (hv : VolumeHandle) (x y z : Sel), (x.isInt || y.isInt || z.isInt) = true →
      volumeGetitem hv [x, y, z] = .ok ⟨0, [x, y, z]⟩) ∧
    imageGetitem ⟨4096, 4096, 2⟩ [.int 0, .slice (some 0) (some 4000) none] =
      .ok ⟨0, [.int 0, .slice (some 0) (some 4000) none]⟩ ∧
    imageGetitem ⟨4096, 4096, 2⟩
        [.slice (some 0) (some 4000) none, .slice (some 0) (some 4000) none] =
      .ok ⟨2, [.slice (some 0) (some 1000) none, .slice (some 0) (some 1000) none]⟩ := by
  refine ⟨?_, ?_, rfl, rfl⟩
  · intro h x y hxy
    simp [imageGetitem, hxy]
  · intro hv x y z hxyz
    simp [volumeGetitem, hxyz]

/-- C7 witness: the scalar-bypass parts instantiated on concrete
handles whose `scale_levels` is positive. -/
theorem C7_scalar_bypass_witness :
    imageGetitem ⟨4096, 4096, 2⟩ [.int 3, .slice none none none] =
      .ok ⟨0, [.int 3, .slice none none none]⟩ ∧
    volumeGetitem ⟨4096, 4096, 4096, 2⟩ [.slice none none none, .int 3, .slice none none none] =
      .ok ⟨0, [.slice none none none, .int 3, .slice none none none]⟩ :=
  ⟨C7_scalar_bypass.1 ⟨4096, 4096, 2⟩ (.int 3) (.slice none none none) (by decide),
   C7_scalar_bypass.2.1 ⟨4096, 4096, 4096, 2⟩ (.slice none none none) (.int 3)
     (.slice none none none) (by decide)⟩

/-- C8: in the explicit-level form the final selector is validated
before any read, for images and volumes alike: a non-integer level
fails with the non-integer-level error, a negative level with the
negative-level error, a level above `scale_levels` with the
out-of-bounds error naming `scale_levels`, while a request at level
exactly `scale_levels` (with stepless range selectors) succeeds. -/
theorem C8_explicit_level_validation (h : ImageHandle) (hv : VolumeHandle)
    (hsl : 0 ≤ h.scale_levels) (hvsl : 0 ≤ hv.scale_levels) :
    (∀ (x y : Sel) (a b st : Option Int),
      imageGetitem h [x, y, .slice a b st] = .error .lastIndexNotInt) ∧
    (∀ (x y : Sel) (l : Int), l < 0 →
      imageGetitem h [x, y, .int l] = .error .negativeScale) ∧
    (∀ (x y : Sel) (l : Int), 0 ≤ l → h.scale_levels < l →
      imageGetitem h [x, y, .int l] = .error (.scaleTooLarge h.scale_levels)) ∧
    (∀ ox0 ox1 oy0 oy1 : Option Int, ∃ r : ResolvedRead,
      imageGetitem h [.slice ox0 ox1 none, .slice oy0 oy1 none, .int h.scale_levels] =
        .ok r ∧ r.level = h.scale_levels) ∧
    (∀ (x y z : Sel) (a b st : Option Int),
      volumeGetitem hv [x, y, z, .slice a b st] = .error .lastIndexNotInt) ∧
    (∀ (x y z : Sel) (l : Int), l < 0 →
      volumeGetitem hv [x, y, z, .int l] = .error .negativeScale) ∧
    (∀ (x y z : Sel) (l : Int), 0 ≤ l → hv.scale_levels < l →
      volumeGetitem hv [x, y, z, .int l] = .error (.scaleTooLarge hv.scale_levels)) ∧
    (∀ ox0 ox1 oy0 oy1 oz0 oz1 : Option Int, ∃ r : ResolvedRead,
      volumeGetitem hv
          [.slice ox0 ox1 none, .slice oy0 oy1 none, .slice oz0 oz1 none,
            .int hv.scale_levels] = .ok r ∧
      r.level = hv.scale_levels) := by
  have hj : h.scale_levels = ((h.scale_levels.toNat : Nat) : Int) := by omega
  have hvj : hv.scale_levels = ((hv.scale_levels.toNat : Nat) : Int) := by omega
  refine ⟨fun x y a b st => rfl, ?_, ?_, ?_, fun x y z a b st => rfl, ?_, ?_, ?_⟩
  · intro x y l hl
    show finishCommon h.scale_levels [x, y] l = .error .negativeScale
    simp only [finishCommon, if_pos hl]
  · intro x y l h0 hlt
    show finishCommon h.scale_levels [x, y] l = .error (.scaleTooLarge h.scale_levels)
    simp only [finishCommon, if_neg (by omega : ¬ l < 0), if_pos hlt]
  · intro ox0 ox1 oy0 oy1
    refine ⟨⟨((h.scale_levels.toNat : Nat) : Int),
      [.slice (ox0.map (fun v => v.fdiv (2 ^ h.scale_levels.toNat)))
          (ox1.map (fun v => v.fdiv (2 ^ h.scale_levels.toNat))) none,
       .slice (oy0.map (fun v => v.fdiv (2 ^ h.scale_levels.toNat)))
          (oy1.map (fun v => v.fdiv (2 ^ h.scale_levels.toNat))) none]⟩, ?_, hj.symm⟩
    show finishCommon h.scale_levels [.slice ox0 ox1 none, .slice oy0 oy1 none]
        h.scale_levels = _
    rw [hj]
    exact finishCommon_two_slices _ ox0 ox1 oy0 oy1 h.scale_levels.toNat le_rfl
  · intro x y z l hl
    show finishCommon hv.scale_levels [x, y, z] l = .error .negativeScale
    simp only [finishCommon, if_pos hl]
  · intro x y z l h0 hlt
    show finishCommon hv.scale_levels [x, y, z] l = .error (.scaleTooLarge hv.scale_levels)
    simp only [finishCommon, if_neg (by omega : ¬ l < 0), if_pos hlt]
  · intro ox0 ox1 oy0 oy1 oz0 oz1
    refine ⟨⟨((hv.scale_levels.toNat : Nat) : Int),
      [.slice (ox0.map (fun v => v.fdiv (2 ^ hv.scale_levels.toNat)))
          (ox1.map (fun v => v.fdiv (2 ^ hv.scale_levels.toNat))) none,
       .slice (oy0.map (fun v => v.fdiv (2 ^ hv.scale_levels.toNat)))
          (oy1.map (fun v => v.fdiv (2 ^ hv.scale_levels.toNat))) none,
       .slice (oz0.map (fun v => v.fdiv (2 ^ hv.scale_levels.toNat)))
          (oz1.map (fun v => v.fdiv (2 ^ hv.scale_levels.toNat))) none]⟩, ?_, hvj.symm⟩
    show finishCommon hv.scale_levels
        [.slice ox0 ox1 none, .slice oy0 oy1 none, .slice oz0 oz1 none]
        hv.scale_levels = _
    rw [hvj]
    exact finishCommon_three_slices _ ox0 ox1 oy0 oy1 oz0 oz1 hv.scale_levels.toNat le_rfl

/-- C8 witness: the validation conjuncts instantiated on concrete
handles with `scale_levels = 2`: a slice as final selector, level -1,
level 3 and level 2. -/
theorem C8_explicit_level_validation_witness :
    imageGetitem ⟨4096, 4096, 2⟩ [.int 0, .int 0, .slice none none none] =
      .error .lastIndexNotInt ∧
    imageGetitem ⟨4096, 4096, 2⟩ [.int 0, .int 0, .int (-1)] =
      .error .negativeScale ∧
    imageGetitem ⟨4096, 4096, 2⟩ [.int 0, .int 0, .int 3] =
      .error (.scaleTooLarge 2) ∧
    (∃ r : ResolvedRead,
      imageGetitem ⟨4096, 4096, 2⟩ [.slice none none none, .slice none none none, .int 2] =
        .ok r ∧ r.level = 2) ∧
    (∃ r : ResolvedRead,
      volumeGetitem ⟨4096, 4096, 4096, 2⟩
          [.slice none none none, .slice none none none, .slice none none none, .int 2] =
        .ok r ∧ r.level = 2) := by
  obtain ⟨h1, h2, h3, h4, g1, g2, g3, g4⟩ :=
    C8_explicit_level_validation ⟨4096, 4096, 2⟩ ⟨4096, 4096, 4096, 2⟩
      (by decide) (by decide)
  exact ⟨h1 (.int 0) (.int 0) none none none, h2 (.int 0) (.int 0) (-1) (by decide),
    h3 (.int 0) (.int 0) 3 (by decide) (by decide), h4 none none none none,
    g4 none none none none none none⟩

set_option maxRecDepth 8000 in
/-- C9: with no `zlims`, a volume build whose contiguous depth range
[0,100) lacks slice 57 fails with the missing-slice error naming 57,
before anything is written (the check precedes store creation in the
model, which returns no partial state on error); but with `zlims`
given, the build always fails with the `TypeError` of
`range(zstart, zstop, step=zstride)` — the claimed missing-slice check
is unreachable on the requested-range path. -/
theorem C9_missing_slice_check :
    build_from_tiffdir (((List.range 100).filter (fun n => n ≠ 57)).map Int.ofNat)
        (40, 40) .uint8 (1024, 1024) true none none none none =
      .error (.missingFile 57) ∧
    (∀ (files : List Int) (srcShape : Nat × Nat) (srcDtype : Dtype)
        (chunk : Nat × Nat) (ms : Bool) (xl yl : Option (Nat × Nat))
        (zl : Option Int × Option Int) (zstride : Option Int), files ≠ [] →
      build_from_tiffdir files srcShape srcDtype chunk ms xl yl (some zl) zstride =
        .error .typeError) := by
  constructor
  · rfl
  · intro files srcShape srcDtype chunk ms xl yl zl zstride hne
    obtain ⟨z1, z2⟩ := zl
    cases z2 with
    | some v => rfl
    | none =>
      cases files with
      | nil => exact absurd rfl hne
      | cons f fs => rfl

/-- C9 witness: the `zlims` branch instantiated at the requested range
[0,100) on a nonempty source. -/
theorem C9_missing_slice_check_witness :
    build_from_tiffdir [0] (4, 4) .uint8 (1024, 1024) true none none
        (some (some 0, some 100)) none = .error .typeError :=
  C9_missing_slice_check.2 [0] (4, 4) .uint8 (1024, 1024) true none none
    (some 0, some 100) none (by decide)

/-- C10: a store built with `multiscale = false` persists no
`scale_levels` attribute; the opened handle reports `scale_levels = 0`,
so an explicit-level request at level 0 succeeds with the selectors
unchanged and any explicit level ≥ 1 fails with the out-of-bounds
error naming 0. -/
theorem C10_nonmultiscale (img : List (List Int)) (chunk : Nat × Nat)
    (xl yl : Option (Nat × Nat)) :
    (build_from_image img chunk false xl yl).multiscale = false ∧
    (build_from_image img chunk false xl yl).scale_levels_attr = none ∧
    ∀ hh : ImageHandle, openImage (build_from_image img chunk false xl yl) = some hh →
      hh.scale_levels = 0 ∧
      (∀ ox0 ox1 oy0 oy1 : Option Int,
        imageGetitem hh [.slice ox0 ox1 none, .slice oy0 oy1 none, .int 0] =
          .ok ⟨0, [.slice ox0 ox1 none, .slice oy0 oy1 none]⟩) ∧
      (∀ (x y : Sel) (l : Int), 1 ≤ l →
        imageGetitem hh [x, y, .int l] = .error (.scaleTooLarge 0)) := by
  refine ⟨rfl, rfl, ?_⟩
  intro hh hopen
  have hstep : openImage (build_from_image img chunk false xl yl) =
      some ⟨((build_from_image img chunk false xl yl).shape0 : Int),
            ((build_from_image img chunk false xl yl).shape1 : Int), 0⟩ := rfl
  rw [hstep] at hopen
  have heq := Option.some.inj hopen
  subst heq
  refine ⟨rfl, fun ox0 ox1 oy0 oy1 => rfl, ?_⟩
  intro x y l hl
  show finishCommon 0 [x, y] l = .error (.scaleTooLarge 0)
  simp only [finishCommon, if_neg (by omega : ¬ l < 0), if_pos (by omega : (0 : Int) < l)]

/-- C10 witness: the statement instantiated on a non-multiscale build
of a 1×1 image, with a level-0 read and a level-1 failure. -/
theorem C10_nonmultiscale_witness :
    (build_from_image [[5]] (4, 4) false none none).multiscale = false ∧
    (build_from_image [[5]] (4, 4) false none none).scale_levels_attr = none ∧
    (⟨1, 1, 0⟩ : ImageHandle).scale_levels = 0 ∧
    imageGetitem ⟨1, 1, 0⟩ [.slice none none none, .slice none none none, .int 0] =
      .ok ⟨0, [.slice none none none, .slice none none none]⟩ ∧
    imageGetitem ⟨1, 1, 0⟩ [.int 0, .int 0, .int 1] = .error (.scaleTooLarge 0) := by
  obtain ⟨h1, h2, h3⟩ := C10_nonmultiscale [[5]] (4, 4) none none
  obtain ⟨g1, g2, g3⟩ := h3 ⟨1, 1, 0⟩ rfl
  exact ⟨h1, h2, g1, g2 none none none none, g3 (.int 0) (.int 0) 1 (by decide)⟩

end Vesuvius
